import Mathlib

set_option maxRecDepth 4000

/-!
Verification of the data-element module of a DICOM library: the value
classifier, the VR conversion engine, the element model, the deferred
element and the raw-to-element converter.

The dynamically typed Python values flowing through the module are
embedded as an inductive type; external collaborator types (Tag,
Sequence, the IS/DS/UID wrappers, the tag dictionary, the value decoder
and the byte source used by deferred reads) are modelled from the
specification, as noted on each definition.
-/

/-- Embedding of the dynamically typed values that flow through the module:
strings, numbers, lists, tuples, the external Sequence container and the
external typed wrappers IS, DS and UID (modelled as wrappers keeping the
value they were built from), plus the Python value None used by the
deferred element as the unread sentinel. -/
inductive PyValue where
  | str (s : String)
  | int (n : Int)
  | isVal (orig : PyValue)
  | dsVal (orig : PyValue)
  | uidVal (orig : PyValue)
  | list (xs : List PyValue)
  | tuple (xs : List PyValue)
  | sequence (xs : List PyValue)
  | none

/-- Embedding of isString: true when concatenation with an empty string
succeeds, which among the embedded values holds exactly for strings. -/
def isString : PyValue → Bool
  | PyValue.str _ => true
  | _ => false

/-- Values on which Python iteration succeeds among the embedded values;
strings are iterable, numbers and the typed wrappers are not. -/
def pyIterable : PyValue → Bool
  | PyValue.str _ => true
  | PyValue.list _ => true
  | PyValue.tuple _ => true
  | PyValue.sequence _ => true
  | _ => false

/-- Embedding of isMultiValue: list-like means iterable and not string-like;
the string check is made first, exactly as in the source. -/
def isMultiValue (value : PyValue) : Bool :=
  if isString value then false else pyIterable value

/-- Items iterated over when the module loops over a multi-valued value. -/
def pyItems : PyValue → List PyValue
  | PyValue.list xs => xs
  | PyValue.tuple xs => xs
  | PyValue.sequence xs => xs
  | _ => []

/-- Embedding of isStringOrStringList: every element of a multi-value is
string-like, or the single value itself is. -/
def isStringOrStringList (val : PyValue) : Bool :=
  if isMultiValue val then (pyItems val).all isString else isString val

/-- Length of the sized values; Python len raises elsewhere and the module
only takes the length of sized values. -/
def pyLenD : PyValue → Nat
  | PyValue.str s => s.length
  | PyValue.list xs => xs.length
  | PyValue.tuple xs => xs.length
  | PyValue.sequence xs => xs.length
  | _ => 0

/-- Embedding of the Python single-character string split as used for the
backslash multi-value delimiter: the runs between occurrences of the
separator, one more part than there are occurrences. -/
def splitOnChar (sep : Char) : List Char → List (List Char)
  | [] => [[]]
  | c :: rest =>
    match splitOnChar sep rest with
    | [] => [[]]
    | h :: t => if c = sep then [] :: h :: t else (c :: h) :: t

/-- Number of occurrences of a character in a character list. -/
def countChar (sep : Char) : List Char → Nat
  | [] => 0
  | c :: rest => (if c = sep then 1 else 0) + countChar sep rest

/-- Embedding of splitting a string value on the backslash delimiter. -/
def splitBackslash (s : String) : List String :=
  (splitOnChar '\\' s.data).map String.mk

/-- Modelled from the spec: the external Tag collaborator, an ordered pair
of group and element numbers. -/
structure Tag where
  group : Nat
  element : Nat
deriving DecidableEq

/-- Modelled from the spec: a tag is private when its group number is odd. -/
def Tag.is_private (t : Tag) : Bool := t.group % 2 == 1

/-- Modelled from the spec: the short accessor for the element number. -/
def Tag.elem (t : Tag) : Nat := t.element

/-- The VRs excluded from backslash splitting in the value setter, exactly
the list written in the source. -/
def noSplitVRs : List String :=
  ["UT", "ST", "LT", "FL", "FD", "AT", "OB", "OW", "OF", "SL", "SQ", "SS",
   "UL", "OB/OW", "OW/OB", "OB or OW", "OW or OB", "UN"]

/-- Occurrence of the two-letter code US in a character list. -/
def listContainsUS : List Char → Bool
  | 'U' :: 'S' :: _ => true
  | _ :: rest => listContainsUS rest
  | [] => false

/-- Embedding of the Python substring test for the two-letter code US inside
a VR string. -/
def containsUS (vr : String) : Bool := listContainsUS vr.data

/-- Embedding of DataElement: tag, VR and the converted stored value, plus
the optional data read through dynamic attribute checks in the source
(private_creator and original_string), modelled as optional fields. -/
structure DataElement where
  tag : Tag
  VR : String
  _value : PyValue
  file_tell : Option Nat
  is_undefined_length : Bool
  private_creator : Option String
  original_string : Option String

/-- Embedding of DataElement._convert: single-value conversion keyed by the
VR. The IS, DS and UID constructors are external collaborators; modelled
from the spec as typed wrappers keeping the value they were built from.
Every other VR passes the value through unchanged. -/
def DataElement._convert (VR : String) (val : PyValue) : PyValue :=
  if VR = "IS" then PyValue.isVal val
  else if VR = "DS" then PyValue.dsVal val
  else if VR = "UI" then PyValue.uidVal val
  else val

/-- Modelled from the spec: the external Sequence collaborator wraps a value
into a sequence container; an already ordered collection contributes its
items. -/
def Sequence_init : PyValue → PyValue
  | PyValue.list xs => PyValue.sequence xs
  | PyValue.tuple xs => PyValue.sequence xs
  | PyValue.sequence xs => PyValue.sequence xs
  | v => PyValue.sequence [v]

/-- Embedding of the isinstance test against the external Sequence type. -/
def isSequenceInst : PyValue → Bool
  | PyValue.sequence _ => true
  | _ => false

/-- Values supporting append, the capability test the converter uses to
detect lists; the Sequence container is a list subtype and supports it,
tuples and strings do not. -/
def hasAppend : PyValue → Bool
  | PyValue.list _ => true
  | PyValue.sequence _ => true
  | _ => false

/-- Embedding of DataElement._convert_value: a sequence VR wraps the value
idempotently, a value with append semantics is converted element by element
into a fresh list, anything else goes through single-value conversion. -/
def DataElement._convert_value (VR : String) (val : PyValue) : PyValue :=
  if VR = "SQ" then
    if isSequenceInst val then val else Sequence_init val
  else if hasAppend val then
    PyValue.list ((pyItems val).map (DataElement._convert VR))
  else DataElement._convert VR val

/-- Embedding of DataElement._setvalue: a string under a VR outside the
no-split list and not containing US is split on the backslash delimiter
when one is present, then the result is handed to the converter; the
function returns the new stored value. -/
def DataElement._setvalue (VR : String) (val : PyValue) : PyValue :=
  let val2 :=
    match val with
    | PyValue.str s =>
      if VR ∉ noSplitVRs ∧ containsUS VR = false then
        if '\\' ∈ s.data then PyValue.list ((splitBackslash s).map PyValue.str)
        else PyValue.str s
      else PyValue.str s
    | v => v
  DataElement._convert_value VR val2

/-- Embedding of the value property setter on an element: conversion uses
the current VR and only the stored value changes. -/
def DataElement.setValue (e : DataElement) (val : PyValue) : DataElement :=
  { e with _value := DataElement._setvalue e.VR val }

/-- Embedding of the value property getter. -/
def DataElement.value (e : DataElement) : PyValue := e._value

/-- Embedding of the VM property: derived on demand from the current value,
one for a non-multi-valued value and the length otherwise. -/
def DataElement.VM (e : DataElement) : Nat :=
  if isMultiValue (DataElement.value e) then pyLenD (DataElement.value e) else 1

/-- Embedding of the DataElement constructor: the VR is stored before the
value, and the value is run through the setter conversion. -/
def DataElement.init (tag : Tag) (VR : String) (value : PyValue)
    (file_value_tell : Option Nat) (is_undefined_length : Bool) : DataElement :=
  { tag := tag, VR := VR, _value := DataElement._setvalue VR value,
    file_tell := file_value_tell, is_undefined_length := is_undefined_length,
    private_creator := Option.none, original_string := Option.none }

/-- Modelled from the spec: the external tag dictionary collaborator; the
private lookup returns nothing where the original raises a key error, and
the VR lookup likewise. -/
structure TagDictionary where
  hasTag : Tag → Bool
  dictDescription : Tag → String
  privateDescription : Tag → String → Option String
  vrForTag : Tag → Option String

/-- Embedding of DataElement.description: dictionary name when the tag is
known; otherwise a private tag defaults to a private-data note, refined by
a successful private-dictionary lookup when a private creator is attached,
or to a private-creator note when no creator is attached and the element
number shifted right by eight is zero; otherwise a zero element number is a
group length and anything else is empty. -/
def DataElement.description (d : TagDictionary) (e : DataElement) : String :=
  if d.hasTag e.tag then d.dictDescription e.tag
  else if e.tag.is_private then
    match e.private_creator with
    | Option.some pc =>
      match d.privateDescription e.tag pc with
      | Option.some n => "[" ++ n ++ "]"
      | Option.none => "Private tag data"
    | Option.none =>
      if e.tag.elem >>> 8 = 0 then "Private Creator" else "Private tag data"
  else if e.tag.element = 0 then "Group Length"
  else ""

/-- Modelled from the spec: external rendering collaborators used only for
display, the builtin value representation and the UID name lookup. -/
structure Externals where
  pyRepr : PyValue → String
  uidName : PyValue → String

/-- The class-level display threshold for long byte values. -/
def maxBytesToDisplay : Nat := 16

/-- The isinstance test against the external Decimal type; decimal values
enter this module only through the DS wrapper. -/
def isDecimalInst : PyValue → Bool
  | PyValue.dsVal _ => true
  | _ => false

/-- The isinstance test against the external UID type. -/
def isUIDInst : PyValue → Bool
  | PyValue.uidVal _ => true
  | _ => false

/-- The byte VRs rendered as an array note when the value is long. -/
def byteDisplayVRs : List String :=
  ["OB", "OW", "OW/OB", "OW or OB", "OB or OW", "US or SS or OW", "US or SS"]

/-- Embedding of DataElement._get_repval, the value rendering used by the
string form of an element. -/
def DataElement._get_repval (ext : Externals) (e : DataElement) : String :=
  if e.VR ∈ byteDisplayVRs ∧ maxBytesToDisplay < pyLenD (DataElement.value e) then
    "Array of " ++ toString (pyLenD (DataElement.value e)) ++ " bytes"
  else
    match e.original_string with
    | Option.some s => ext.pyRepr (PyValue.str s)
    | Option.none =>
      if isDecimalInst (DataElement.value e) then ext.pyRepr (DataElement.value e)
      else if isUIDInst (DataElement.value e) then ext.uidName (DataElement.value e)
      else ext.pyRepr (DataElement.value e)

/-- Modelled from the spec: the file handle collaborator from which the
deferred element copies its flags and path at construction. -/
structure DicomFileHandle where
  is_implicit_VR : Bool
  is_little_endian : Bool
  name : String

/-- Embedding of DeferredDataElement: the stored value starts as the None
sentinel and everything needed to locate and validate the bytes later is
kept. -/
structure DeferredDataElement where
  tag : Tag
  VR : String
  _value : PyValue
  fp_is_implicit_VR : Bool
  fp_is_little_endian : Bool
  filepath : String
  file_mtime : Nat
  data_element_tell : Nat
  length : Nat

/-- Embedding of the DeferredDataElement constructor. -/
def DeferredDataElement.init (tag : Tag) (VR : String) (fp : DicomFileHandle)
    (file_mtime : Nat) (data_element_tell : Nat) (length : Nat) :
    DeferredDataElement :=
  { tag := tag, VR := VR, _value := PyValue.none,
    fp_is_implicit_VR := fp.is_implicit_VR,
    fp_is_little_endian := fp.is_little_endian,
    filepath := fp.name, file_mtime := file_mtime,
    data_element_tell := data_element_tell, length := length }

/-- Modelled from the spec: the state of the underlying file at read time,
its current modification time and the bytes obtained by seeking to an
offset and reading a length. -/
structure ByteSource where
  mtime : Nat
  readAt : Nat → Nat → PyValue

/-- Failure of a deferred read: the source changed since construction. -/
inductive DeferredReadError where
  | staleSource
deriving DecidableEq

/-- Modelled from the spec: read_value is supplied by the stream-reading
layer, not by this module; it re-reads the stored length at the stored
offset, fails when the modification time of the source no longer equals
the one recorded at construction, and otherwise stores the bytes through
the normal setter path of the element. -/
def DeferredDataElement.read_value (src : ByteSource) (e : DeferredDataElement) :
    Except DeferredReadError DeferredDataElement :=
  if src.mtime = e.file_mtime then
    Except.ok { e with
      _value := DataElement._setvalue e.VR (src.readAt e.data_element_tell e.length) }
  else Except.error DeferredReadError.staleSource

/-- Embedding of the deferred value property getter: materialize on the
first read, afterwards return the stored value; explicit state passing
makes the mutation visible. -/
def DeferredDataElement.getvalue (src : ByteSource) (e : DeferredDataElement) :
    Except DeferredReadError (PyValue × DeferredDataElement) :=
  match e._value with
  | PyValue.none =>
    match DeferredDataElement.read_value src e with
    | Except.error err => Except.error err
    | Except.ok e2 => Except.ok (e2._value, e2)
  | v => Except.ok (v, e)

/-- Embedding of the deferred value property setter, which delegates to the
parent setter using the current VR. -/
def DeferredDataElement.setValue (e : DeferredDataElement) (val : PyValue) :
    DeferredDataElement :=
  { e with _value := DataElement._setvalue e.VR val }

/-- View of a deferred element as a plain element, used where the parent
class code runs on it. -/
def DeferredDataElement.toDataElement (e : DeferredDataElement) : DataElement :=
  { tag := e.tag, VR := e.VR, _value := e._value, file_tell := Option.none,
    is_undefined_length := false, private_creator := Option.none,
    original_string := Option.none }

/-- Embedding of DeferredDataElement._get_repval: an unread element renders
as a deferred-read note without touching any source; the returned pair
carries the element state to make the absence of mutation explicit. -/
def DeferredDataElement._get_repval (ext : Externals) (e : DeferredDataElement) :
    String × DeferredDataElement :=
  match e._value with
  | PyValue.none => ("Deferred read: length " ++ toString e.length, e)
  | _ => (DataElement._get_repval ext (DeferredDataElement.toDataElement e), e)

/-- Embedding of the RawDataElement named tuple. -/
structure RawDataElement where
  tag : Tag
  VR : Option String
  length : Nat
  value : PyValue
  value_tell : Option Nat
  is_implicit_VR : Bool
  is_little_endian : Bool

/-- Errors raised by the raw-to-element converter: the unknown-tag key
error naming the tag, and the re-raised decoder failure with the tag
attached. -/
inductive FromRawError where
  | unknownTag (t : Tag)
  | notImplemented (msg : String) (t : Tag)

/-- Embedding of the VR resolution step of DataElement_from_raw: an
explicit VR is used unchanged, an absent one is looked up in the
dictionary, an unknown private tag defaults to OB, an unknown tag with a
zero element number defaults to UL, and anything else is the unknown-tag
failure naming the tag. -/
def resolve_VR (d : TagDictionary) (raw : RawDataElement) :
    Except FromRawError String :=
  match raw.VR with
  | Option.some vr => Except.ok vr
  | Option.none =>
    match d.vrForTag raw.tag with
    | Option.some vr => Except.ok vr
    | Option.none =>
      if raw.tag.is_private then Except.ok "OB"
      else if raw.tag.element = 0 then Except.ok "UL"
      else Except.error (FromRawError.unknownTag raw.tag)

/-- Embedding of DataElement_from_raw: resolve the VR, decode the raw value
through the external decoder collaborator, re-raise a decoder failure with
the tag attached, and build the element, flagging undefined length exactly
on the sentinel length value. -/
def DataElement_from_raw (d : TagDictionary)
    (decode : String → RawDataElement → Except String PyValue)
    (raw : RawDataElement) : Except FromRawError DataElement :=
  match resolve_VR d raw with
  | Except.error err => Except.error err
  | Except.ok vr =>
    match decode vr raw with
    | Except.error msg => Except.error (FromRawError.notImplemented msg raw.tag)
    | Except.ok v =>
      Except.ok (DataElement.init raw.tag vr v raw.value_tell
        (raw.length == 0xFFFFFFFF))

/-- The single-character split always produces one more part than there are
occurrences of the separator. -/
theorem splitOnChar_length (sep : Char) (l : List Char) :
    (splitOnChar sep l).length = countChar sep l + 1 := by
  induction l with
  | nil => rfl
  | cons c rest ih =>
    unfold splitOnChar
    cases h : splitOnChar sep rest with
    | nil => rw [h] at ih; simp at ih
    | cons hd tl =>
      rw [h] at ih
      dsimp only
      by_cases hc : c = sep
      · rw [if_pos hc]
        simp only [List.length_cons] at ih ⊢
        simp only [countChar, if_pos hc]
        omega
      · rw [if_neg hc]
        simp only [List.length_cons] at ih ⊢
        simp only [countChar, if_neg hc]
        omega

/-- Membership of the sequence VR in the no-split list. -/
theorem sq_mem_noSplitVRs : "SQ" ∈ noSplitVRs := by decide

/-- C1: for a VR outside the no-split set that does not contain US,
assigning a string containing the backslash delimiter stores a list
obtained by splitting the string first and then running each substring
through single-value VR conversion, and the stored length is the number of
delimiters plus one. -/
theorem C1_split_then_convert (VR : String) (s : String)
    (h1 : VR ∉ noSplitVRs) (h2 : containsUS VR = false) (h3 : '\\' ∈ s.data) :
    DataElement._setvalue VR (PyValue.str s)
        = PyValue.list ((splitBackslash s).map
            fun p => DataElement._convert VR (PyValue.str p))
    ∧ pyLenD (DataElement._setvalue VR (PyValue.str s))
        = countChar '\\' s.data + 1 := by
  have hsq : VR ≠ "SQ" := by
    intro hh
    rw [hh] at h1
    exact h1 sq_mem_noSplitVRs
  have hmain : DataElement._setvalue VR (PyValue.str s)
      = PyValue.list ((splitBackslash s).map
          fun p => DataElement._convert VR (PyValue.str p)) := by
    unfold DataElement._setvalue
    dsimp only
    rw [if_pos ⟨h1, h2⟩, if_pos h3]
    unfold DataElement._convert_value
    rw [if_neg hsq]
    simp [hasAppend, pyItems, List.map_map, Function.comp]
  refine ⟨hmain, ?_⟩
  rw [hmain]
  simp [pyLenD, splitBackslash, splitOnChar_length]

/-- Witness for C1 at the person-name VR and a two-name string. -/
theorem C1_witness :
    ("PN" ∉ noSplitVRs ∧ containsUS "PN" = false
      ∧ '\\' ∈ "Doe^John\\Doe^Jane".data)
    ∧ (DataElement._setvalue "PN" (PyValue.str "Doe^John\\Doe^Jane")
        = PyValue.list ((splitBackslash "Doe^John\\Doe^Jane").map
            fun p => DataElement._convert "PN" (PyValue.str p))
      ∧ pyLenD (DataElement._setvalue "PN" (PyValue.str "Doe^John\\Doe^Jane"))
        = countChar '\\' "Doe^John\\Doe^Jane".data + 1) :=
  ⟨⟨by decide, by decide, by decide⟩,
   C1_split_then_convert "PN" "Doe^John\\Doe^Jane"
     (by decide) (by decide) (by decide)⟩

/-- The sequence wrap always yields a sequence container. -/
theorem Sequence_init_is_sequence (v : PyValue) :
    ∃ ys, Sequence_init v = PyValue.sequence ys := by
  cases v <;> exact ⟨_, rfl⟩

/-- The setter under the sequence VR never splits and reduces to the
isinstance test followed by the wrap. -/
theorem setvalue_SQ (v : PyValue) :
    DataElement._setvalue "SQ" v
      = if isSequenceInst v then v else Sequence_init v := by
  cases v <;> rfl

/-- The setter under the sequence VR always stores a sequence container. -/
theorem setvalue_SQ_is_sequence (v : PyValue) :
    ∃ ys, DataElement._setvalue "SQ" v = PyValue.sequence ys := by
  cases v <;> exact ⟨_, rfl⟩

/-- C4: assigning any value under the sequence VR yields a Sequence-wrapped
value, idempotently; an already wrapped sequence is returned unchanged, a
list contributes its items unchanged, and a string is neither split nor
converted. -/
theorem C4_sq_wrap (v : PyValue) (xs : List PyValue) (s : String) :
    (∃ ys, DataElement._setvalue "SQ" v = PyValue.sequence ys)
    ∧ DataElement._setvalue "SQ" (PyValue.sequence xs) = PyValue.sequence xs
    ∧ DataElement._setvalue "SQ" (DataElement._setvalue "SQ" v)
        = DataElement._setvalue "SQ" v
    ∧ DataElement._setvalue "SQ" (PyValue.list xs) = PyValue.sequence xs
    ∧ DataElement._setvalue "SQ" (PyValue.str s)
        = PyValue.sequence [PyValue.str s] := by
  refine ⟨setvalue_SQ_is_sequence v, rfl, ?_, rfl, ?_⟩
  · obtain ⟨ys, hys⟩ := setvalue_SQ_is_sequence v
    rw [hys]
    rfl
  · rw [setvalue_SQ]
    rfl

/-- C5: the multiplicity is one for a non-multi-valued stored value, the
stored length for a multi-valued one, and is a function of the current
value alone. -/
theorem C5_vm (e e2 : DataElement) :
    (isMultiValue (DataElement.value e) = false → DataElement.VM e = 1)
    ∧ (isMultiValue (DataElement.value e) = true →
        DataElement.VM e = pyLenD (DataElement.value e))
    ∧ (DataElement.value e = DataElement.value e2 →
        DataElement.VM e = DataElement.VM e2) := by
  refine ⟨?_, ?_, ?_⟩
  · intro h
    unfold DataElement.VM
    rw [if_neg (by rw [h]; exact Bool.false_ne_true)]
  · intro h
    unfold DataElement.VM
    rw [if_pos (by rw [h])]
  · intro h
    unfold DataElement.VM
    rw [h]

/-- Concrete single-valued element used by witnesses. -/
def eSingleEx : DataElement :=
  DataElement.init ⟨0x10, 0x10⟩ "PN" (PyValue.str "Doe^John") Option.none false

/-- Concrete multi-valued element used by witnesses. -/
def eMultiEx : DataElement :=
  DataElement.init ⟨0x10, 0x1001⟩ "PN" (PyValue.str "Doe^John\\Doe^Jane")
    Option.none false

/-- Witness for C5 on a single-valued and a two-valued element. -/
theorem C5_witness :
    (isMultiValue (DataElement.value eSingleEx) = false
      ∧ DataElement.VM eSingleEx = 1)
    ∧ (isMultiValue (DataElement.value eMultiEx) = true
      ∧ DataElement.VM eMultiEx = pyLenD (DataElement.value eMultiEx)
      ∧ DataElement.VM eMultiEx = 2) :=
  ⟨⟨by decide, (C5_vm eSingleEx eSingleEx).1 (by decide)⟩,
   ⟨by decide, (C5_vm eMultiEx eMultiEx).2.1 (by decide), by decide⟩⟩

/-- C6: single-value conversion wraps under the integer-string, the
decimal-string and the UID VRs, and passes the value through unchanged for
every other VR; in particular an empty string under such a VR stays an
empty string and is not an error. -/
theorem C6_convert (VR : String) (v : PyValue)
    (h1 : VR ≠ "IS") (h2 : VR ≠ "DS") (h3 : VR ≠ "UI") :
    DataElement._convert "IS" v = PyValue.isVal v
    ∧ DataElement._convert "DS" v = PyValue.dsVal v
    ∧ DataElement._convert "UI" v = PyValue.uidVal v
    ∧ DataElement._convert VR v = v
    ∧ DataElement._convert VR (PyValue.str "") = PyValue.str "" := by
  refine ⟨by rfl, ?_, ?_, ?_, ?_⟩
  · unfold DataElement._convert
    rw [if_neg (by decide), if_pos rfl]
  · unfold DataElement._convert
    rw [if_neg (by decide), if_neg (by decide), if_pos rfl]
  · unfold DataElement._convert
    rw [if_neg h1, if_neg h2, if_neg h3]
  · unfold DataElement._convert
    rw [if_neg h1, if_neg h2, if_neg h3]

/-- Witness for C6 at the unsigned-short VR. -/
theorem C6_witness :
    ("US" ≠ "IS" ∧ "US" ≠ "DS" ∧ "US" ≠ "UI")
    ∧ (DataElement._convert "IS" (PyValue.int 3)
        = PyValue.isVal (PyValue.int 3)
      ∧ DataElement._convert "DS" (PyValue.int 3)
        = PyValue.dsVal (PyValue.int 3)
      ∧ DataElement._convert "UI" (PyValue.int 3)
        = PyValue.uidVal (PyValue.int 3)
      ∧ DataElement._convert "US" (PyValue.int 3) = PyValue.int 3
      ∧ DataElement._convert "US" (PyValue.str "") = PyValue.str "") :=
  ⟨⟨by decide, by decide, by decide⟩,
   C6_convert "US" (PyValue.int 3) (by decide) (by decide) (by decide)⟩

/-- C9: a tuple has no append capability, so under any non-sequence VR it
is passed whole to single-value conversion rather than converted element
by element; under the integer-string VR a tuple becomes one wrapped value,
while a list is converted element by element. -/
theorem C9_tuple_whole (VR : String) (xs : List PyValue) (h : VR ≠ "SQ") :
    DataElement._setvalue VR (PyValue.tuple xs)
        = DataElement._convert VR (PyValue.tuple xs)
    ∧ DataElement._setvalue "IS" (PyValue.tuple xs)
        = PyValue.isVal (PyValue.tuple xs)
    ∧ (∀ ys : List PyValue, DataElement._setvalue "IS" (PyValue.list ys)
        = PyValue.list (ys.map (DataElement._convert "IS"))) := by
  refine ⟨?_, ?_, ?_⟩
  · unfold DataElement._setvalue DataElement._convert_value
    rw [if_neg h]
    rfl
  · unfold DataElement._setvalue DataElement._convert_value
    rw [if_neg (by decide)]
    rfl
  · intro ys
    unfold DataElement._setvalue DataElement._convert_value
    rw [if_neg (by decide)]
    rfl

/-- Witness for C9 at the unsigned-short VR and a two-element tuple. -/
theorem C9_witness :
    ("US" ≠ "SQ")
    ∧ (DataElement._setvalue "US" (PyValue.tuple [PyValue.int 1, PyValue.int 2])
        = DataElement._convert "US" (PyValue.tuple [PyValue.int 1, PyValue.int 2])
      ∧ DataElement._setvalue "IS" (PyValue.tuple [PyValue.int 1, PyValue.int 2])
        = PyValue.isVal (PyValue.tuple [PyValue.int 1, PyValue.int 2])
      ∧ (∀ ys : List PyValue, DataElement._setvalue "IS" (PyValue.list ys)
          = PyValue.list (ys.map (DataElement._convert "IS")))) :=
  ⟨by decide,
   C9_tuple_whole "US" [PyValue.int 1, PyValue.int 2] (by decide)⟩

/-- Once a value is stored, the deferred getter returns it and the state
unchanged, for any source whatsoever. -/
theorem getvalue_of_read (src : ByteSource) (e : DeferredDataElement)
    (h : e._value ≠ PyValue.none) :
    DeferredDataElement.getvalue src e = Except.ok (e._value, e) := by
  unfold DeferredDataElement.getvalue
  cases hv : e._value <;> first | exact absurd hv h | rfl

/-- C2: from the unread state, a read against a stale source fails rather
than returning data; a read against a fresh source materializes exactly
the one stored source read through the setter path; and once a value is
stored, every further read returns it with the state unchanged and without
consulting any source. -/
theorem C2_deferred_read (src : ByteSource) (e : DeferredDataElement)
    (h : e._value = PyValue.none) :
    (src.mtime ≠ e.file_mtime →
        DeferredDataElement.getvalue src e
          = Except.error DeferredReadError.staleSource)
    ∧ (src.mtime = e.file_mtime →
        ∃ e2, DeferredDataElement.getvalue src e = Except.ok (e2._value, e2)
          ∧ e2._value = DataElement._setvalue e.VR
              (src.readAt e.data_element_tell e.length)
          ∧ (e2._value ≠ PyValue.none →
              ∀ src2, DeferredDataElement.getvalue src2 e2
                = Except.ok (e2._value, e2))) := by
  constructor
  · intro hm
    unfold DeferredDataElement.getvalue
    rw [h]
    dsimp only
    unfold DeferredDataElement.read_value
    rw [if_neg hm]
  · intro hm
    refine ⟨{ e with _value := DataElement._setvalue e.VR (src.readAt e.data_element_tell e.length) }, ?_, rfl, ?_⟩
    · unfold DeferredDataElement.getvalue
      rw [h]
      dsimp only
      unfold DeferredDataElement.read_value
      rw [if_pos hm]
    · intro hne src2
      exact getvalue_of_read src2 _ hne

/-- Concrete byte source whose modification time matches the deferred
element below. -/
def srcFreshEx : ByteSource :=
  { mtime := 5, readAt := fun _ _ => PyValue.str "100" }

/-- Concrete byte source whose modification time differs from the one
recorded by the deferred element below. -/
def srcStaleEx : ByteSource :=
  { mtime := 6, readAt := fun _ _ => PyValue.str "100" }

/-- Concrete unread deferred element used by witnesses. -/
def deferredEx : DeferredDataElement :=
  { tag := ⟨0x28, 0x10⟩, VR := "IS", _value := PyValue.none,
    fp_is_implicit_VR := true, fp_is_little_endian := true,
    filepath := "file.dcm", file_mtime := 5, data_element_tell := 100,
    length := 4 }

/-- Witness for C2 on a concrete deferred element, one stale and one fresh
source. -/
theorem C2_witness :
    (DeferredDataElement.getvalue srcStaleEx deferredEx
        = Except.error DeferredReadError.staleSource)
    ∧ (∃ e2, DeferredDataElement.getvalue srcFreshEx deferredEx
          = Except.ok (e2._value, e2)
        ∧ e2._value = DataElement._setvalue deferredEx.VR
            (srcFreshEx.readAt deferredEx.data_element_tell deferredEx.length)
        ∧ (e2._value ≠ PyValue.none →
            ∀ src2, DeferredDataElement.getvalue src2 e2
              = Except.ok (e2._value, e2))) :=
  ⟨(C2_deferred_read srcStaleEx deferredEx rfl).1 (by decide),
   (C2_deferred_read srcFreshEx deferredEx rfl).2 rfl⟩

/-- Concrete dictionary knowing no tag. -/
def dEmpty : TagDictionary :=
  { hasTag := fun _ => false, dictDescription := fun _ => "",
    privateDescription := fun _ _ => Option.none,
    vrForTag := fun _ => Option.none }

/-- Concrete decoder collaborator returning a fixed decoded value. -/
def decodeEx : String → RawDataElement → Except String PyValue :=
  fun _ _ => Except.ok (PyValue.str "AB")

/-- Concrete raw record with a private tag and no VR. -/
def rawPrivEx : RawDataElement :=
  { tag := ⟨0x0009, 0x0010⟩, VR := Option.none, length := 4,
    value := PyValue.str "AB", value_tell := Option.some 100,
    is_implicit_VR := true, is_little_endian := true }

/-- Concrete raw record with a zero element number and no VR. -/
def rawGroupLenEx : RawDataElement :=
  { tag := ⟨0x0008, 0⟩, VR := Option.none, length := 4,
    value := PyValue.str "AB", value_tell := Option.some 100,
    is_implicit_VR := true, is_little_endian := true }

/-- Concrete raw record whose tag resolves nowhere. -/
def rawUnknownEx : RawDataElement :=
  { tag := ⟨0x0008, 0x0010⟩, VR := Option.none, length := 4,
    value := PyValue.str "AB", value_tell := Option.some 100,
    is_implicit_VR := true, is_little_endian := true }

/-- Concrete raw record carrying an explicit VR. -/
def rawExplicitEx : RawDataElement :=
  { tag := ⟨0x0010, 0x0010⟩, VR := Option.some "PN", length := 8,
    value := PyValue.str "AB", value_tell := Option.some 100,
    is_implicit_VR := false, is_little_endian := true }

/-- C3: the raw converter uses an explicit VR unchanged, falls back to the
dictionary for an absent VR, defaults an unknown private tag to OB and an
unknown zero-element tag to UL, fails with the unknown-tag error naming
the tag otherwise, and builds the element with the resolved VR when the
decoder succeeds. -/
theorem C3_fromRaw_vr (d : TagDictionary)
    (decode : String → RawDataElement → Except String PyValue)
    (raw : RawDataElement) :
    (∀ vr, raw.VR = Option.some vr → resolve_VR d raw = Except.ok vr)
    ∧ (∀ vr, raw.VR = Option.none → d.vrForTag raw.tag = Option.some vr →
        resolve_VR d raw = Except.ok vr)
    ∧ (raw.VR = Option.none → d.vrForTag raw.tag = Option.none →
        raw.tag.is_private = true → resolve_VR d raw = Except.ok "OB")
    ∧ (raw.VR = Option.none → d.vrForTag raw.tag = Option.none →
        raw.tag.is_private = false → raw.tag.element = 0 →
        resolve_VR d raw = Except.ok "UL")
    ∧ (raw.VR = Option.none → d.vrForTag raw.tag = Option.none →
        raw.tag.is_private = false → raw.tag.element ≠ 0 →
        DataElement_from_raw d decode raw
          = Except.error (FromRawError.unknownTag raw.tag))
    ∧ (∀ vr v, resolve_VR d raw = Except.ok vr → decode vr raw = Except.ok v →
        DataElement_from_raw d decode raw
          = Except.ok (DataElement.init raw.tag vr v raw.value_tell
              (raw.length == 0xFFFFFFFF))) := by
  refine ⟨?_, ?_, ?_, ?_, ?_, ?_⟩
  · intro vr hvr
    simp [resolve_VR, hvr]
  · intro vr h0 hdict
    simp [resolve_VR, h0, hdict]
  · intro h0 hdict hpriv
    simp [resolve_VR, h0, hdict, hpriv]
  · intro h0 hdict hpriv helem
    simp [resolve_VR, h0, hdict, hpriv, helem]
  · intro h0 hdict hpriv helem
    simp [DataElement_from_raw, resolve_VR, h0, hdict, hpriv, helem]
  · intro vr v hres hdec
    simp [DataElement_from_raw, hres, hdec]

/-- Witness for C3 on concrete raw records for each resolution outcome. -/
theorem C3_witness :
    resolve_VR dEmpty rawPrivEx = Except.ok "OB"
    ∧ resolve_VR dEmpty rawGroupLenEx = Except.ok "UL"
    ∧ DataElement_from_raw dEmpty decodeEx rawUnknownEx
        = Except.error (FromRawError.unknownTag rawUnknownEx.tag)
    ∧ DataElement_from_raw dEmpty decodeEx rawExplicitEx
        = Except.ok (DataElement.init rawExplicitEx.tag "PN" (PyValue.str "AB")
            rawExplicitEx.value_tell (rawExplicitEx.length == 0xFFFFFFFF)) :=
  ⟨(C3_fromRaw_vr dEmpty decodeEx rawPrivEx).2.2.1 rfl rfl rfl,
   (C3_fromRaw_vr dEmpty decodeEx rawGroupLenEx).2.2.2.1 rfl rfl rfl rfl,
   (C3_fromRaw_vr dEmpty decodeEx rawUnknownEx).2.2.2.2.1 rfl rfl rfl
     (by decide),
   (C3_fromRaw_vr dEmpty decodeEx rawExplicitEx).2.2.2.2.2 "PN"
     (PyValue.str "AB") rfl rfl⟩

/-- Concrete private element outside the dictionary, no creator attached,
element number with a nonzero low byte but a zero high byte. -/
def eC7ex : DataElement :=
  DataElement.init ⟨0x0009, 0x0010⟩ "LO" (PyValue.str "ACME") Option.none false

/-- C7 counterexample: the claim predicts the private-creator refinement
only when the low byte of the element number is zero; here the low byte is
sixteen, no creator is attached, yet the code refines the description,
because the source tests the high byte of the element number instead. -/
theorem C7_counterexample :
    dEmpty.hasTag eC7ex.tag = false
    ∧ eC7ex.tag.is_private = true
    ∧ eC7ex.private_creator = Option.none
    ∧ eC7ex.tag.element % 256 ≠ 0
    ∧ DataElement.description dEmpty eC7ex ≠ "Private tag data"
    ∧ DataElement.description dEmpty eC7ex = "Private Creator" :=
  ⟨rfl, rfl, rfl, by decide, by decide, by decide⟩

/-- C7 as amended: an unknown private tag describes as private tag data by
default, refined to the bracketed private-dictionary name when a private
creator is attached and the lookup succeeds, and refined to the
private-creator note when no creator is attached and the high byte of the
element number is zero. -/
theorem C7_description (d : TagDictionary) (e : DataElement)
    (h1 : d.hasTag e.tag = false) (h2 : e.tag.is_private = true) :
    (e.private_creator = Option.none → e.tag.elem >>> 8 ≠ 0 →
        DataElement.description d e = "Private tag data")
    ∧ (∀ pc n, e.private_creator = Option.some pc →
        d.privateDescription e.tag pc = Option.some n →
        DataElement.description d e = "[" ++ n ++ "]")
    ∧ (∀ pc, e.private_creator = Option.some pc →
        d.privateDescription e.tag pc = Option.none →
        DataElement.description d e = "Private tag data")
    ∧ (e.private_creator = Option.none → e.tag.elem >>> 8 = 0 →
        DataElement.description d e = "Private Creator") := by
  refine ⟨?_, ?_, ?_, ?_⟩
  · intro hpc hne
    simp [DataElement.description, h1, h2, hpc, hne]
  · intro pc n hpc hlook
    simp [DataElement.description, h1, h2, hpc, hlook]
  · intro pc hpc hlook
    simp [DataElement.description, h1, h2, hpc, hlook]
  · intro hpc hze
    simp [DataElement.description, h1, h2, hpc, hze]

/-- Concrete dictionary answering every private lookup. -/
def dPrivEx : TagDictionary :=
  { hasTag := fun _ => false, dictDescription := fun _ => "",
    privateDescription := fun _ _ => Option.some "Vendor Data",
    vrForTag := fun _ => Option.none }

/-- Concrete private element with a creator attached. -/
def eC7creatorEx : DataElement :=
  { DataElement.init ⟨0x0009, 0x1001⟩ "LO" (PyValue.str "100")
      Option.none false with
    private_creator := Option.some "ACME" }

/-- Witness for the amended C7: the creator-free zero-high-byte refinement
and the bracketed private-dictionary refinement. -/
theorem C7_witness :
    DataElement.description dEmpty eC7ex = "Private Creator"
    ∧ DataElement.description dPrivEx eC7creatorEx = "[" ++ "Vendor Data" ++ "]" :=
  ⟨(C7_description dEmpty eC7ex rfl rfl).2.2.2 rfl rfl,
   (C7_description dPrivEx eC7creatorEx rfl rfl).2.1 "ACME" "Vendor Data"
     rfl rfl⟩

/-- A successful deferred source read stores the converted bytes and
changes nothing else. -/
theorem read_value_ok_shape (src : ByteSource) (de de2 : DeferredDataElement)
    (h : DeferredDataElement.read_value src de = Except.ok de2) :
    de2 = { de with _value := DataElement._setvalue de.VR (src.readAt de.data_element_tell de.length) } := by
  unfold DeferredDataElement.read_value at h
  by_cases hm : src.mtime = de.file_mtime
  · rw [if_pos hm] at h
    injection h with h2
    exact h2.symm
  · rw [if_neg hm] at h
    exact absurd h (by simp)

/-- C8: the VR never changes after construction: the plain setter, the
deferred setter, a deferred source read and a deferred value read all
preserve it. -/
theorem C8_vr_immutable (e : DataElement) (v : PyValue) (src : ByteSource)
    (de : DeferredDataElement) :
    (DataElement.setValue e v).VR = e.VR
    ∧ (DeferredDataElement.setValue de v).VR = de.VR
    ∧ (∀ de2, DeferredDataElement.read_value src de = Except.ok de2 →
        de2.VR = de.VR)
    ∧ (∀ r de2, DeferredDataElement.getvalue src de = Except.ok (r, de2) →
        de2.VR = de.VR) := by
  refine ⟨rfl, rfl, ?_, ?_⟩
  · intro de2 hde
    rw [read_value_ok_shape src de de2 hde]
  · intro r de2 hde
    unfold DeferredDataElement.getvalue at hde
    cases hv : de._value
    case none =>
      rw [hv] at hde
      dsimp only at hde
      cases hr : DeferredDataElement.read_value src de with
      | error err =>
        rw [hr] at hde
        exact absurd hde (by simp)
      | ok e2 =>
        rw [hr] at hde
        dsimp only at hde
        injection hde with hpair
        have he2 : e2 = de2 := congrArg Prod.snd hpair
        rw [← he2, read_value_ok_shape src de e2 hr]
    all_goals
      rw [hv] at hde
      injection hde with hpair
      have hsnd : de = de2 := congrArg Prod.snd hpair
      rw [← hsnd]

/-- Witness for C8 on a concrete element and a concrete deferred read. -/
theorem C8_witness :
    (DataElement.setValue eSingleEx (PyValue.str "X")).VR = eSingleEx.VR
    ∧ (∃ de2, DeferredDataElement.read_value srcFreshEx deferredEx
        = Except.ok de2 ∧ de2.VR = deferredEx.VR) := by
  refine ⟨(C8_vr_immutable eSingleEx (PyValue.str "X") srcFreshEx deferredEx).1,
    ⟨_, rfl, ?_⟩⟩
  exact (C8_vr_immutable eSingleEx (PyValue.str "X") srcFreshEx
    deferredEx).2.2.1 _ rfl

/-- Concrete rendering collaborators used by witnesses. -/
def extEx : Externals := { pyRepr := fun _ => "", uidName := fun _ => "" }

/-- C10: rendering an unread deferred element yields the deferred-read note
with the stored byte length, and leaves the element exactly as it was; no
byte source is consulted at all. -/
theorem C10_unread_repval (ext : Externals) (e : DeferredDataElement)
    (h : e._value = PyValue.none) :
    DeferredDataElement._get_repval ext e
      = ("Deferred read: length " ++ toString e.length, e) := by
  unfold DeferredDataElement._get_repval
  rw [h]

/-- Witness for C10 on the concrete unread deferred element. -/
theorem C10_witness :
    DeferredDataElement._get_repval extEx deferredEx
      = ("Deferred read: length " ++ toString deferredEx.length, deferredEx) :=
  C10_unread_repval extEx deferredEx rfl
